import Mathlib

/-!
Shallow embedding of `src/src/app/src/server.js` (the Express application of
the DevOps-DevSecOps-ready-CI-CD-pipeline repository).

Modelling conventions:
* JavaScript numbers are modelled as `ℚ` (durations, averages, uptime);
  the claims settled here never depend on float rounding.
* `new Date().toISOString()` is modelled as a `String` parameter `now`
  supplied per request; `process.uptime()` as a `ℚ` parameter `uptime`.
* JSON response bodies are modelled by the inductive `App.Json`; field order
  follows the source, so equality of `Json` values corresponds to
  byte-identical serialized bodies.
* The Express middleware/route pipeline is modelled as the list `App.appLayers`
  in exact registration order (server.js lines 55-181): the five routes, the
  catch-all 404 handler (line 157), and then the request-counting (line 166)
  and response-time (line 172) middleware.  Express runs layers in
  registration order and stops at the first layer that responds without
  calling `next`.
* Route matching follows Express 4's default router configuration
  (`caseSensitive` off, `strict` off): a literal route path matches the
  request path case-insensitively and tolerates one trailing slash, and
  `app.get` routes also serve HEAD requests with the GET handler
  (`RouteHit` below).
* The `cors` middleware (lines 32-35) is registered before the limiter and
  the routes; it is modelled from its documented behaviour: it only sets
  headers and calls `next` for non-OPTIONS requests, but (with its defaults
  `preflightContinue: false`, `optionsSuccessStatus: 204`) it terminates
  every OPTIONS request with 204 and an empty body.  `helmet` (line 31) and
  `morgan` (line 48) only set headers / log and always call `next`;
  `express.json`/`express.urlencoded` (lines 51-52) pass requests without
  bodies through.  Requests are modelled without bodies or query strings,
  so `originalUrl` is the request path.
* The `express-rate-limit` middleware (lines 38-45) is registered after
  `cors` and before all routes (`app.use(limiter)`, line 45); it is
  modelled from its documented behaviour: it keeps a per-IP hit count
  within a 15-minute window and responds 429 with a fixed message once the
  count exceeds `max = 100`.
* The error-handling middleware (line 147) is only invoked by Express when a
  previous layer throws; it is modelled as the stand-alone `App.errorHandler`.
* Graceful shutdown (lines 184-198) is modelled in namespace `App.Lifecycle`
  as a transition system, with `server.close` given Node's documented
  semantics: stop accepting new connections, and once the in-flight count
  reaches zero invoke the callback, which calls `process.exit(0)`.
-/

namespace App

/-- The configuration read from the environment (`process.env`).
`none` models an unset variable. -/
structure Config where
  nodeEnv : Option String
  npmPackageVersion : Option String
deriving DecidableEq

/-- Response payloads.  Object fields are kept in source order; `empty` is
the absent payload of a response ended without a body (`res.end()`, as the
cors preflight handler does). -/
inductive Json where
  | str : String → Json
  | num : ℚ → Json
  | bool : Bool → Json
  | arr : List Json → Json
  | obj : List (String × Json) → Json
  | empty : Json

/-- Field lookup in a JSON object (first match). -/
def Json.get : Json → String → Option Json
  | .obj fields, k => fields.lookup k
  | _, _ => none

/-- An HTTP response: status code and JSON body. -/
structure Response where
  status : Nat
  body : Json

/-- `req.app.locals`: the process-wide mutable counters.  `none` models a
property that was never assigned (JavaScript `undefined`). -/
structure AppLocals where
  requestCount : Option Nat
  avgResponseTime : Option ℚ
deriving DecidableEq

/-- An inbound HTTP request: method, `req.originalUrl`, and `req.ip`.
Requests are modelled without bodies or query strings, so `originalUrl` is
the request path. -/
structure Request where
  method : String
  originalUrl : String
  ip : String
deriving DecidableEq

/-- Lowercase a string character by character (as `String.toLower` does,
written over the character list so that it evaluates in the kernel). -/
def lowerStr (s : String) : String :=
  ⟨s.data.map Char.toLower⟩

/-- Express 4 default route matching for an `app.get(pat, ...)` route with a
literal path `pat` (all routes in server.js are literal): the route serves
GET requests — and HEAD requests, which the Express router dispatches to the
GET handler — and the path matches case-insensitively (`caseSensitive` off)
with one optional trailing slash (`strict` off).  All the registered paths
are lowercase, so case-insensitive comparison lowercases the request
path. -/
def RouteHit (pat : String) (req : Request) : Prop :=
  (req.method = "GET" ∨ req.method = "HEAD") ∧
  (lowerStr req.originalUrl = pat ∨ lowerStr req.originalUrl = pat ++ "/")

instance (pat : String) (req : Request) : Decidable (RouteHit pat req) := by
  unfold RouteHit
  infer_instance

/-- The technology list used by the `/` and `/api/v1/info` handlers
(server.js lines 73-77 and 132-136). -/
def technologies : List String :=
  ["Node.js", "Express", "Docker", "Kubernetes",
   "Jenkins", "GitHub Actions", "Terraform", "Ansible",
   "SonarQube", "Trivy", "Prometheus", "Grafana"]

/-- Body of `GET /` (server.js lines 55-79). -/
def rootBody (now : String) : Json :=
  .obj [
    ("message", .str "Welcome to DevOps CI/CD Pipeline Application! 🚀"),
    ("status", .str "success"),
    ("timestamp", .str now),
    ("description", .str "A comprehensive CI/CD pipeline demonstrating DevOps and DevSecOps practices"),
    ("availableEndpoints", .obj [
      ("root", .str "GET / - This welcome page"),
      ("health", .str "GET /health - Health check and status"),
      ("metrics", .str "GET /metrics - Prometheus metrics"),
      ("status", .str "GET /api/v1/status - Application status and features"),
      ("info", .str "GET /api/v1/info - Application information and technologies")]),
    ("quickStart", .obj [
      ("healthCheck", .str "http://localhost:3000/health"),
      ("apiStatus", .str "http://localhost:3000/api/v1/status"),
      ("documentation", .str "Check the README.md for full setup instructions")]),
    ("technologies", .arr (technologies.map .str))]

/-- Body of `GET /health` (server.js lines 82-90). -/
def healthBody (cfg : Config) (now : String) (uptime : ℚ) : Json :=
  .obj [
    ("status", .str "healthy"),
    ("timestamp", .str now),
    ("uptime", .num uptime),
    ("environment", .str (cfg.nodeEnv.getD "development")),
    ("version", .str (cfg.npmPackageVersion.getD "1.0.0"))]

/-- Body of `GET /metrics` (server.js lines 93-107): `|| 0` defaults for the
never-assigned locals. -/
def metricsBody (locals : AppLocals) (now : String) : Json :=
  .obj [
    ("http_requests_total", .obj [
      ("total", .num ((locals.requestCount.getD 0 : Nat) : ℚ)),
      ("timestamp", .str now)]),
    ("http_request_duration_seconds", .obj [
      ("average", .num (locals.avgResponseTime.getD 0)),
      ("timestamp", .str now)])]

/-- Body of `GET /api/v1/status` (server.js lines 110-125). -/
def statusBody (now : String) : Json :=
  .obj [
    ("message", .str "DevOps CI/CD Pipeline Application is running!"),
    ("status", .str "success"),
    ("timestamp", .str now),
    ("features", .arr ((
      ["Security scanning with SonarQube",
       "Container scanning with Trivy",
       "Dependency scanning with OWASP",
       "Secrets detection with Gitleaks",
       "Monitoring with Prometheus & Grafana",
       "Deployment to Kubernetes"] : List String).map .str))]

/-- Body of `GET /api/v1/info` (server.js lines 127-144).  Note: no
timestamp, no dynamic state. -/
def infoBody : Json :=
  .obj [
    ("application", .str "DevOps CI/CD Pipeline Demo"),
    ("version", .str "1.0.0"),
    ("description", .str "A comprehensive CI/CD pipeline demonstrating DevOps and DevSecOps practices"),
    ("technologies", .arr (technologies.map .str)),
    ("endpoints", .arr ((
      ["GET /health - Health check",
       "GET /metrics - Prometheus metrics",
       "GET /api/v1/status - Application status",
       "GET /api/v1/info - Application information"] : List String).map .str))]

/-- Body of the 404 catch-all handler (server.js lines 157-163). -/
def notFoundBody (originalUrl : String) (now : String) : Json :=
  .obj [
    ("error", .str "Not Found"),
    ("message", .str ("Route " ++ originalUrl ++ " not found")),
    ("timestamp", .str now)]

/-- The error-handling middleware (server.js lines 147-154), as a function of
the unhandled error's message.  Express invokes it only when a previous layer
throws; it always produces a response and never exits the process. -/
def errorHandler (cfg : Config) (errMessage : String) (now : String) : Response :=
  ⟨500, .obj [
    ("error", .str "Internal Server Error"),
    ("message", .str (if cfg.nodeEnv = some "development" then errMessage
                      else "Something went wrong")),
    ("timestamp", .str now)]⟩

/-- The request-counting middleware body (server.js lines 166-169):
`requestCount = (requestCount || 0) + 1`. -/
def requestCountingUpdate (l : AppLocals) : AppLocals :=
  { l with requestCount := some (l.requestCount.getD 0 + 1) }

/-- The divisor used by the response-time middleware (server.js line 177):
`req.app.locals.requestCount || 1`, i.e. 1 when the counter is unset
(undefined) or 0. -/
def divisorOf : Option Nat → Nat
  | none => 1
  | some 0 => 1
  | some n => n

/-- The `finish` callback of the response-time middleware (server.js lines
174-179): folds the measured duration into the running average. -/
def responseTimeUpdate (l : AppLocals) (duration : ℚ) : AppLocals :=
  let avgTime : ℚ := l.avgResponseTime.getD 0
  let totalRequests : Nat := divisorOf l.requestCount
  { l with avgResponseTime := some ((avgTime * ((totalRequests : ℚ) - 1)
      + duration) / (totalRequests : ℚ)) }

/-- Per-request mutable context threaded through the layer pipeline:
the shared locals, and whether the response-time middleware armed its
`finish` listener for this request. -/
structure ReqCtx where
  locals : AppLocals
  timingArmed : Bool
deriving DecidableEq

/-- What a layer does with a request: respond (and stop the pipeline), or
call `next`. -/
inductive Outcome where
  | respond : Response → Outcome
  | next : Outcome

/-- One Express layer (route handler or middleware). -/
structure Layer where
  run : Config → String → ℚ → Request → ReqCtx → Outcome × ReqCtx

/-- `app.get('/', ...)` (server.js line 55). -/
def rootLayer : Layer :=
  ⟨fun _ now _ req ctx =>
    if RouteHit "/" req then (.respond ⟨200, rootBody now⟩, ctx)
    else (.next, ctx)⟩

/-- `app.get('/health', ...)` (server.js line 82). -/
def healthLayer : Layer :=
  ⟨fun cfg now uptime req ctx =>
    if RouteHit "/health" req then
      (.respond ⟨200, healthBody cfg now uptime⟩, ctx)
    else (.next, ctx)⟩

/-- `app.get('/metrics', ...)` (server.js line 93). -/
def metricsLayer : Layer :=
  ⟨fun _ now _ req ctx =>
    if RouteHit "/metrics" req then
      (.respond ⟨200, metricsBody ctx.locals now⟩, ctx)
    else (.next, ctx)⟩

/-- `app.get('/api/v1/status', ...)` (server.js line 110). -/
def statusLayer : Layer :=
  ⟨fun _ now _ req ctx =>
    if RouteHit "/api/v1/status" req then
      (.respond ⟨200, statusBody now⟩, ctx)
    else (.next, ctx)⟩

/-- `app.get('/api/v1/info', ...)` (server.js line 127). -/
def infoLayer : Layer :=
  ⟨fun _ _ _ req ctx =>
    if RouteHit "/api/v1/info" req then
      (.respond ⟨200, infoBody⟩, ctx)
    else (.next, ctx)⟩

/-- `app.use('*', ...)` — the 404 catch-all (server.js line 157).  It matches
every method and path and always responds. -/
def notFoundLayer : Layer :=
  ⟨fun _ now _ req ctx => (.respond ⟨404, notFoundBody req.originalUrl now⟩, ctx)⟩

/-- The request-counting middleware (server.js line 166), registered AFTER
the catch-all. -/
def countingLayer : Layer :=
  ⟨fun _ _ _ _ ctx => (.next, { ctx with locals := requestCountingUpdate ctx.locals })⟩

/-- The response-time middleware (server.js line 172), registered AFTER the
catch-all: it arms a `finish` listener; the fold into the average happens
when the response finishes. -/
def timingLayer : Layer :=
  ⟨fun _ _ _ _ ctx => (.next, { ctx with timingArmed := true })⟩

/-- All route/middleware layers after the rate limiter, in exact registration
order (server.js lines 55-181). -/
def appLayers : List Layer :=
  [rootLayer, healthLayer, metricsLayer, statusLayer, infoLayer,
   notFoundLayer, countingLayer, timingLayer]

/-- Express dispatch: run the layers in order, stopping at the first
response.  `none` means no layer responded (the request would hang). -/
def runLayers (cfg : Config) (now : String) (uptime : ℚ) (req : Request) :
    List Layer → ReqCtx → Option Response × ReqCtx
  | [], ctx => (none, ctx)
  | l :: ls, ctx =>
    match l.run cfg now uptime req ctx with
    | (.respond r, ctx') => (some r, ctx')
    | (.next, ctx') => runLayers cfg now uptime req ls ctx'

/-- Handle one request through the route pipeline (everything after the rate
limiter): run the layers, then, if the response-time middleware armed its
`finish` listener, apply the average update with the measured duration. -/
def handleRoutes (cfg : Config) (now : String) (uptime duration : ℚ)
    (req : Request) (locals : AppLocals) : Option Response × AppLocals :=
  match runLayers cfg now uptime req appLayers ⟨locals, false⟩ with
  | (resp, ctx) =>
    (resp, if ctx.timingArmed then responseTimeUpdate ctx.locals duration else ctx.locals)

/-- Rate-limiter window: `15 * 60 * 1000` ms (server.js line 39). -/
def windowMs : Nat := 15 * 60 * 1000

/-- Rate-limiter cap: `max: 100` requests per IP per window (server.js
line 40). -/
def maxPerWindow : Nat := 100

/-- Rate-limiter message (server.js line 41). -/
def limiterMessage : String :=
  "Too many requests from this IP, please try again later."

/-- Per-IP hit counts within the current rate-limit window. -/
def RateTable : Type := List (String × Nat)

/-- Look up an IP's hit count (0 if absent). -/
def rateGet (t : RateTable) (ip : String) : Nat :=
  ((t : List (String × Nat)).lookup ip).getD 0

/-- Set an IP's hit count. -/
def rateSet : RateTable → String → Nat → RateTable
  | [], ip, n => [(ip, n)]
  | (k, v) :: rest, ip, n =>
    if k = ip then (k, n) :: rest else (k, v) :: rateSet rest ip n

/-- The whole server state: the shared locals and the limiter's table for the
current window. -/
structure ServerState where
  locals : AppLocals
  rateHits : RateTable

/-- `app.locals` at process start: nothing assigned. -/
def initLocals : AppLocals := ⟨none, none⟩

/-- Server state at process start (fresh limiter window). -/
def initState : ServerState := ⟨initLocals, []⟩

/-- Full dispatch of one inbound request within one limiter window
(server.js lines 31-181), in registration order.  `helmet` (line 31) sets
headers and calls `next`.  `cors` (line 32) runs next: it terminates every
OPTIONS request with 204 and an empty body (defaults
`preflightContinue: false`, `optionsSuccessStatus: 204`) and passes every
other request on.  The limiter (`app.use(limiter)`, line 45) then counts
the hit and, once the IP's count within the window exceeds `max`, responds
429 with the fixed message; otherwise the request proceeds through
`morgan`/body parsing (which pass it on) to the route pipeline. -/
def dispatch (cfg : Config) (now : String) (uptime duration : ℚ)
    (req : Request) (st : ServerState) : Option Response × ServerState :=
  if req.method = "OPTIONS" then
    (some ⟨204, .empty⟩, st)
  else
    let hits := rateGet st.rateHits req.ip + 1
    let rate' := rateSet st.rateHits req.ip hits
    if maxPerWindow < hits then
      (some ⟨429, .str limiterMessage⟩, { st with rateHits := rate' })
    else
      match handleRoutes cfg now uptime duration req st.locals with
      | (resp, locals') => (resp, ⟨locals', rate'⟩)

/-- One inbound request event: the request plus its wall-clock readings. -/
structure ReqEv where
  req : Request
  now : String
  uptime : ℚ
  duration : ℚ

/-- Run a sequence of requests, one at a time (no concurrency). -/
def runSeq (cfg : Config) : List ReqEv → ServerState → ServerState
  | [], st => st
  | e :: es, st => runSeq cfg es (dispatch cfg e.now e.uptime e.duration e.req st).2

/-- The request matches one of the five defined routes
(server.js lines 55-144), under Express 4's default matching (`RouteHit`). -/
def MatchesRoute (req : Request) : Prop :=
  RouteHit "/" req ∨ RouteHit "/health" req ∨ RouteHit "/metrics" req ∨
    RouteHit "/api/v1/status" req ∨ RouteHit "/api/v1/info" req

instance (req : Request) : Decidable (MatchesRoute req) := by
  unfold MatchesRoute
  infer_instance

/-- Derived characterization of the route pipeline's response (proved equal
to running `appLayers` in `runLayers_app` below): first matching route wins,
otherwise the catch-all 404. -/
def routeResponse (cfg : Config) (now : String) (uptime : ℚ) (req : Request)
    (locals : AppLocals) : Response :=
  if RouteHit "/" req then ⟨200, rootBody now⟩
  else if RouteHit "/health" req then ⟨200, healthBody cfg now uptime⟩
  else if RouteHit "/metrics" req then ⟨200, metricsBody locals now⟩
  else if RouteHit "/api/v1/status" req then ⟨200, statusBody now⟩
  else if RouteHit "/api/v1/info" req then ⟨200, infoBody⟩
  else ⟨404, notFoundBody req.originalUrl now⟩

/-- An environment with nothing set (all defaults). -/
def cfg0 : Config := ⟨none, none⟩

/-- A concrete health request used in concrete evaluations. -/
def reqHealth : Request := ⟨"GET", "/health", "203.0.113.9"⟩

/-- A concrete metrics request used in concrete evaluations. -/
def reqMetrics : Request := ⟨"GET", "/metrics", "203.0.113.9"⟩

/-- A server state whose rate-limit window for `203.0.113.9` is exhausted
(100 hits already recorded). -/
def overSt : ServerState := ⟨initLocals, [("203.0.113.9", 100)]⟩

/-- A server state with 5 hits already recorded for `203.0.113.9` (still
under the cap). -/
def altSt : ServerState := ⟨initLocals, [("203.0.113.9", 5)]⟩

/-- A concrete request matching no route. -/
def reqNF : Request := ⟨"GET", "/nonexistent-path", "203.0.113.9"⟩

/-- A concrete API-info request. -/
def reqInfo : Request := ⟨"GET", "/api/v1/info", "203.0.113.9"⟩

/-- A concrete OPTIONS (preflight) request to an unrouted path. -/
def reqOpt : Request := ⟨"OPTIONS", "/nonexistent-path", "203.0.113.9"⟩

/-- Observer: the numeric `http_requests_total.total` field of a metrics
response. -/
def metricsTotalOf (r : Response) : Option ℚ :=
  match (r.body.get "http_requests_total").bind (fun j => j.get "total") with
  | some (.num q) => some q
  | _ => none

/-- Observer: the numeric `http_request_duration_seconds.average` field of a
metrics response. -/
def metricsAvgOf (r : Response) : Option ℚ :=
  match (r.body.get "http_request_duration_seconds").bind (fun j => j.get "average") with
  | some (.num q) => some q
  | _ => none

namespace Lifecycle

/-- The two termination signals handled (server.js lines 184 and 192). -/
inductive Sig where
  | sigterm
  | sigint
deriving DecidableEq

/-- Lifecycle events: a new connection is accepted, an in-flight request
finishes (its response is delivered), or a termination signal arrives. -/
inductive Ev where
  | accept
  | finish
  | signal : Sig → Ev
deriving DecidableEq

/-- Lifecycle state: whether the listener accepts new connections, the number
of in-flight requests, and the exit code once the process has exited. -/
structure Life where
  accepting : Bool
  inflight : Nat
  exited : Option Nat
deriving DecidableEq

/-- State right after `app.listen` succeeds (server.js line 201). -/
def linit : Life := ⟨true, 0, none⟩

/-- One lifecycle step.  A signal handler (server.js lines 184-198) calls
`server.close(cb)`: stop accepting new connections; when the last in-flight
request finishes, the callback runs `process.exit(0)`.  If nothing is in
flight at signal time the callback fires at once.  An exited process does
nothing further. -/
def lstep (l : Life) : Ev → Life
  | .accept =>
    if l.exited.isSome then l
    else if l.accepting then { l with inflight := l.inflight + 1 }
    else l
  | .finish =>
    if l.exited.isSome then l
    else if l.inflight = 0 then l
    else if l.accepting then { l with inflight := l.inflight - 1 }
    else if l.inflight - 1 = 0 then ⟨false, 0, some 0⟩
    else { l with inflight := l.inflight - 1 }
  | .signal _ =>
    if l.exited.isSome then l
    else if l.inflight = 0 then ⟨false, 0, some 0⟩
    else { l with accepting := false }

/-- Run a list of lifecycle events. -/
def lrun (l : Life) : List Ev → Life
  | [] => l
  | e :: es => lrun (lstep l e) es

/-- Invariant: once exited, the exit code is 0, nothing is in flight, and the
listener no longer accepts. -/
def LInv (l : Life) : Prop :=
  l.exited.isSome → l.exited = some 0 ∧ l.inflight = 0 ∧ l.accepting = false

end Lifecycle

/-! ### Pipeline lemmas -/

/-- Running the registered layer list on any request responds before the
counting/timing middleware is ever reached: the catch-all 404 (registered
first) answers every request the five routes do not, so the context comes
back unchanged, with the timing listener never armed. -/
theorem runLayers_app (cfg : Config) (now : String) (uptime : ℚ)
    (req : Request) (locals : AppLocals) :
    runLayers cfg now uptime req appLayers ⟨locals, false⟩ =
      (some (routeResponse cfg now uptime req locals), ⟨locals, false⟩) := by
  unfold routeResponse
  split_ifs with h1 h2 h3 h4 h5
  · simp only [runLayers, appLayers, rootLayer, healthLayer, metricsLayer,
      statusLayer, infoLayer, notFoundLayer, if_pos h1]
  · simp only [runLayers, appLayers, rootLayer, healthLayer, metricsLayer,
      statusLayer, infoLayer, notFoundLayer, if_neg h1, if_pos h2]
  · simp only [runLayers, appLayers, rootLayer, healthLayer, metricsLayer,
      statusLayer, infoLayer, notFoundLayer, if_neg h1, if_neg h2, if_pos h3]
  · simp only [runLayers, appLayers, rootLayer, healthLayer, metricsLayer,
      statusLayer, infoLayer, notFoundLayer, if_neg h1, if_neg h2, if_neg h3,
      if_pos h4]
  · simp only [runLayers, appLayers, rootLayer, healthLayer, metricsLayer,
      statusLayer, infoLayer, notFoundLayer, if_neg h1, if_neg h2, if_neg h3,
      if_neg h4, if_pos h5]
  · simp only [runLayers, appLayers, rootLayer, healthLayer, metricsLayer,
      statusLayer, infoLayer, notFoundLayer, if_neg h1, if_neg h2, if_neg h3,
      if_neg h4, if_neg h5]

/-- `handleRoutes` responds via `routeResponse` and leaves the shared locals
untouched. -/
theorem handleRoutes_eq (cfg : Config) (now : String) (uptime duration : ℚ)
    (req : Request) (locals : AppLocals) :
    handleRoutes cfg now uptime duration req locals =
      (some (routeResponse cfg now uptime req locals), locals) := by
  simp only [handleRoutes, runLayers_app, Bool.false_eq_true, if_false]

/-- For a non-OPTIONS request under the rate-limit cap, `dispatch` answers
with `routeResponse` and only the limiter's table changes. -/
theorem dispatch_route (cfg : Config) (now : String) (uptime duration : ℚ)
    (req : Request) (st : ServerState)
    (hopt : req.method ≠ "OPTIONS")
    (h : rateGet st.rateHits req.ip < maxPerWindow) :
    dispatch cfg now uptime duration req st =
      (some (routeResponse cfg now uptime req st.locals),
       ⟨st.locals, rateSet st.rateHits req.ip (rateGet st.rateHits req.ip + 1)⟩) := by
  simp only [dispatch, handleRoutes_eq, if_neg hopt,
    if_neg (show ¬maxPerWindow < rateGet st.rateHits req.ip + 1 by
      simp only [maxPerWindow] at h ⊢; omega)]

/-- A non-OPTIONS request over the cap is answered 429 with the limiter's
message. -/
theorem dispatch_limited (cfg : Config) (now : String) (uptime duration : ℚ)
    (req : Request) (st : ServerState)
    (hopt : req.method ≠ "OPTIONS")
    (h : maxPerWindow ≤ rateGet st.rateHits req.ip) :
    (dispatch cfg now uptime duration req st).1 =
      some ⟨429, .str limiterMessage⟩ := by
  simp only [dispatch, if_neg hopt,
    if_pos (show maxPerWindow < rateGet st.rateHits req.ip + 1 by
      simp only [maxPerWindow] at h ⊢; omega)]

/-- Every OPTIONS request is terminated by `cors` with 204 and an empty
body, before the limiter and the routes. -/
theorem dispatch_preflight (cfg : Config) (now : String) (uptime duration : ℚ)
    (req : Request) (st : ServerState)
    (hopt : req.method = "OPTIONS") :
    dispatch cfg now uptime duration req st = (some ⟨204, .empty⟩, st) := by
  simp only [dispatch, if_pos hopt]

/-- No single dispatch ever changes the shared locals. -/
theorem dispatch_locals (cfg : Config) (now : String) (uptime duration : ℚ)
    (req : Request) (st : ServerState) :
    (dispatch cfg now uptime duration req st).2.locals = st.locals := by
  simp only [dispatch, handleRoutes_eq]
  split_ifs <;> rfl

/-- No sequence of requests ever changes the shared locals. -/
theorem runSeq_locals (cfg : Config) (evs : List ReqEv) (st : ServerState) :
    (runSeq cfg evs st).locals = st.locals := by
  induction evs generalizing st with
  | nil => rfl
  | cons e es ih => rw [runSeq, ih, dispatch_locals]

/-! ### Claim theorems -/

/-- Claim C3: the request-counting and response-time middleware are
registered after every route handler and after the catch-all 404 handler,
and every one of those handlers ends the request without passing it on, so
no request ever executes either middleware; hence after any sequence of
inbound requests, a `GET /metrics` request (admitted by the rate limiter)
reports `http_requests_total.total = 0` and
`http_request_duration_seconds.average = 0`. -/
theorem counters_are_dead_metrics_zero
    (cfg : Config) (evs : List ReqEv) (now : String) (uptime duration : ℚ)
    (req : Request) (hm : req.method = "GET") (hp : req.originalUrl = "/metrics")
    (hrate : rateGet (runSeq cfg evs initState).rateHits req.ip < maxPerWindow) :
    (dispatch cfg now uptime duration req (runSeq cfg evs initState)).1 =
      some ⟨200, metricsBody initLocals now⟩ ∧
    metricsTotalOf ⟨200, metricsBody initLocals now⟩ = some 0 ∧
    metricsAvgOf ⟨200, metricsBody initLocals now⟩ = some 0 ∧
    (runSeq cfg evs initState).locals = initLocals := by
  have hl : (runSeq cfg evs initState).locals = initLocals :=
    runSeq_locals cfg evs initState
  refine ⟨?_, by rfl, by rfl, hl⟩
  have hopt : req.method ≠ "OPTIONS" := by rw [hm]; decide
  have c1 : ¬ RouteHit "/" req := by unfold RouteHit; rw [hm, hp]; decide
  have c2 : ¬ RouteHit "/health" req := by unfold RouteHit; rw [hm, hp]; decide
  have c3 : RouteHit "/metrics" req := by unfold RouteHit; rw [hm, hp]; decide
  rw [dispatch_route cfg now uptime duration req _ hopt hrate, hl]
  unfold routeResponse
  rw [if_neg c1, if_neg c2, if_pos c3]

/-- Witness for C3: two concrete requests, then a metrics request, which
reports 0 for both counters. -/
theorem counters_are_dead_metrics_zero_witness :
    rateGet (runSeq cfg0 [⟨reqHealth, "t1", 1, 5⟩] initState).rateHits
        reqMetrics.ip < maxPerWindow ∧
    (dispatch cfg0 "t2" 2 3 reqMetrics
        (runSeq cfg0 [⟨reqHealth, "t1", 1, 5⟩] initState)).1 =
      some ⟨200, metricsBody initLocals "t2"⟩ :=
  ⟨by decide,
   (counters_are_dead_metrics_zero cfg0 [⟨reqHealth, "t1", 1, 5⟩] "t2" 2 3
      reqMetrics rfl rfl (by decide)).1⟩

/-- Claim C1 (code evidence): contrary to the claim, a request does NOT
increment `requestCount` — the counting middleware sits after the catch-all
404 handler and never runs.  Concretely: after N = 1 sequential request
(`GET /health`), a `GET /metrics` request reports
`http_requests_total.total = 0`, not 1. -/
theorem request_not_counted_metrics_total_zero :
    ((dispatch cfg0 "t2" 2 3 reqMetrics
        (runSeq cfg0 [⟨reqHealth, "t1", 1, 5⟩] initState)).1.bind
      metricsTotalOf) = some 0 ∧ (0 : ℚ) ≠ 1 :=
  ⟨rfl, by norm_num⟩

/-- Claim C2 (code evidence): contrary to the claim, the average is never
recomputed — the response-time middleware sits after the catch-all 404
handler and never runs.  Concretely: after one completed request of duration
D = 5 ms, a `GET /metrics` request reports
`http_request_duration_seconds.average = 0`, not 5. -/
theorem avg_not_recomputed_metrics_avg_zero :
    ((dispatch cfg0 "t2" 2 3 reqMetrics
        (runSeq cfg0 [⟨reqHealth, "t1", 1, 5⟩] initState)).1.bind
      metricsAvgOf) = some 0 ∧ (0 : ℚ) ≠ 5 :=
  ⟨rfl, by norm_num⟩

/-- Claim C10: the running-average computation divides by
`requestCount || 1`, which is at least 1 for every possible state of the
shared counters, so the division never divides by zero; the update computes
exactly `(oldAvg * (divisor - 1) + duration) / divisor`. -/
theorem avg_update_divisor_never_zero (l : AppLocals) (d : ℚ) :
    1 ≤ divisorOf l.requestCount ∧
    ((divisorOf l.requestCount : ℚ) ≠ 0) ∧
    (responseTimeUpdate l d).avgResponseTime =
      some (((l.avgResponseTime.getD 0) * ((divisorOf l.requestCount : ℚ) - 1) + d)
        / (divisorOf l.requestCount : ℚ)) := by
  have h1 : 1 ≤ divisorOf l.requestCount := by
    rcases l.requestCount with _ | n
    · exact le_refl 1
    · rcases n with _ | m
      · exact le_refl 1
      · exact Nat.succ_le_succ (Nat.zero_le m)
  exact ⟨h1, Nat.cast_ne_zero.mpr (by omega), rfl⟩

/-- Claim C4 (counterexample): with the environment name set to `"test"` —
a non-production configuration — and a raised error whose text is
`"boom"`, the boundary's message is the generic `"Something went wrong"`,
not the real error text: the code checks `NODE_ENV === 'development'`
specifically, not "non-production". -/
theorem error_message_elided_outside_development :
    ((errorHandler ⟨some "test", none⟩ "boom" "t").body.get "message" =
      some (.str "Something went wrong")) ∧
    ((some "test" : Option String) ≠ some "production") ∧
    ("Something went wrong" ≠ "boom") :=
  ⟨rfl, by decide, by decide⟩

/-- Claim C4 (amended): the error boundary responds 500 with error kind
"Internal Server Error", the real error text exactly when the configured
environment is `"development"` and the generic `"Something went wrong"` for
every other value (including other non-production names), plus a
timestamp. -/
theorem error_boundary_contract (cfg : Config) (msg now : String) :
    (errorHandler cfg msg now).status = 500 ∧
    (errorHandler cfg msg now).body.get "error" =
      some (.str "Internal Server Error") ∧
    (errorHandler cfg msg now).body.get "message" =
      some (.str (if cfg.nodeEnv = some "development" then msg
                  else "Something went wrong")) ∧
    (errorHandler cfg msg now).body.get "timestamp" = some (.str now) :=
  ⟨rfl, rfl, rfl, rfl⟩

/-- Claim C5 (counterexample): the same request from the same address gets
different responses depending only on how many prior requests arrived from
that address in the window — 429 after 100 prior hits, 200 after none.  The
core itself applies rate limiting. -/
theorem response_depends_on_ip_count :
    ((dispatch cfg0 "t" 1 1 reqHealth overSt).1.map Response.status =
      some 429) ∧
    ((dispatch cfg0 "t" 1 1 reqHealth initState).1.map Response.status =
      some 200) ∧
    ((dispatch cfg0 "t" 1 1 reqHealth overSt).1.map Response.status ≠
      (dispatch cfg0 "t" 1 1 reqHealth initState).1.map Response.status) :=
  ⟨rfl, rfl, by decide⟩

/-- Claim C5 (amended): the core applies a per-source-address rate limit of
100 requests per 15-minute window to every non-preflight request: below the
cap the response is independent of the per-address count, a non-OPTIONS
request beyond the cap is answered 429 with the fixed limiter message, and
OPTIONS requests are answered 204 by `cors` before the limiter (hence also
independently of the count). -/
theorem rate_limiting_in_core :
    (∀ (cfg : Config) (now : String) (uptime duration : ℚ) (req : Request)
        (st st' : ServerState), st.locals = st'.locals →
        rateGet st.rateHits req.ip < maxPerWindow →
        rateGet st'.rateHits req.ip < maxPerWindow →
        (dispatch cfg now uptime duration req st).1 =
          (dispatch cfg now uptime duration req st').1) ∧
    (∀ (cfg : Config) (now : String) (uptime duration : ℚ) (req : Request)
        (st : ServerState), req.method ≠ "OPTIONS" →
        maxPerWindow ≤ rateGet st.rateHits req.ip →
        (dispatch cfg now uptime duration req st).1 =
          some ⟨429, .str limiterMessage⟩) ∧
    (∀ (cfg : Config) (now : String) (uptime duration : ℚ) (req : Request)
        (st st' : ServerState), req.method = "OPTIONS" →
        (dispatch cfg now uptime duration req st).1 =
          (dispatch cfg now uptime duration req st').1) := by
  refine ⟨?_, ?_, ?_⟩
  · intro cfg now uptime duration req st st' hloc h h'
    by_cases hopt : req.method = "OPTIONS"
    · rw [dispatch_preflight cfg now uptime duration req st hopt,
          dispatch_preflight cfg now uptime duration req st' hopt]
    · rw [dispatch_route cfg now uptime duration req st hopt h,
          dispatch_route cfg now uptime duration req st' hopt h', hloc]
  · intro cfg now uptime duration req st hopt h
    exact dispatch_limited cfg now uptime duration req st hopt h
  · intro cfg now uptime duration req st st' hopt
    rw [dispatch_preflight cfg now uptime duration req st hopt,
        dispatch_preflight cfg now uptime duration req st' hopt]

/-- Witness for the amended C5: concrete under-cap states with equal locals
give equal responses, a concrete over-cap state gives the 429, and a
preflight gets the same 204 on a fresh and an over-cap state. -/
theorem rate_limiting_in_core_witness :
    initState.locals = altSt.locals ∧
    rateGet initState.rateHits reqHealth.ip < maxPerWindow ∧
    rateGet altSt.rateHits reqHealth.ip < maxPerWindow ∧
    (dispatch cfg0 "t" 1 1 reqHealth initState).1 =
      (dispatch cfg0 "t" 1 1 reqHealth altSt).1 ∧
    reqHealth.method ≠ "OPTIONS" ∧
    maxPerWindow ≤ rateGet overSt.rateHits reqHealth.ip ∧
    (dispatch cfg0 "t" 1 1 reqHealth overSt).1 =
      some ⟨429, .str limiterMessage⟩ ∧
    reqOpt.method = "OPTIONS" ∧
    (dispatch cfg0 "t" 1 1 reqOpt initState).1 =
      (dispatch cfg0 "t" 1 1 reqOpt overSt).1 :=
  ⟨rfl, by decide, by decide,
   rate_limiting_in_core.1 cfg0 "t" 1 1 reqHealth initState altSt rfl
     (by decide) (by decide),
   by decide, by decide,
   rate_limiting_in_core.2.1 cfg0 "t" 1 1 reqHealth overSt (by decide)
     (by decide),
   rfl,
   rate_limiting_in_core.2.2 cfg0 "t" 1 1 reqOpt initState overSt rfl⟩

/-- Claim C6: every `GET /health` request admitted by the limiter returns
HTTP 200 with status `"healthy"`, a timestamp, the process uptime (reported
faithfully, hence non-negative and non-decreasing whenever the supplied
uptime readings are), the environment name defaulting to `"development"`,
and a version defaulting to `"1.0.0"`. -/
theorem health_contract (cfg : Config) (now : String) (uptime duration : ℚ)
    (req : Request) (st : ServerState)
    (hm : req.method = "GET") (hp : req.originalUrl = "/health")
    (hrate : rateGet st.rateHits req.ip < maxPerWindow) :
    (dispatch cfg now uptime duration req st).1 =
      some ⟨200, healthBody cfg now uptime⟩ ∧
    (healthBody cfg now uptime).get "status" = some (.str "healthy") ∧
    (healthBody cfg now uptime).get "timestamp" = some (.str now) ∧
    (healthBody cfg now uptime).get "uptime" = some (.num uptime) ∧
    (healthBody cfg now uptime).get "environment" =
      some (.str (cfg.nodeEnv.getD "development")) ∧
    (healthBody cfg now uptime).get "version" =
      some (.str (cfg.npmPackageVersion.getD "1.0.0")) ∧
    (∀ u₁ u₂ : ℚ, 0 ≤ u₁ → u₁ ≤ u₂ →
      ∃ j₁ j₂ : ℚ, (healthBody cfg now u₁).get "uptime" = some (.num j₁) ∧
        (healthBody cfg now u₂).get "uptime" = some (.num j₂) ∧
        0 ≤ j₁ ∧ j₁ ≤ j₂) := by
  refine ⟨?_, rfl, rfl, rfl, rfl, rfl, ?_⟩
  · have hopt : req.method ≠ "OPTIONS" := by rw [hm]; decide
    have c1 : ¬ RouteHit "/" req := by unfold RouteHit; rw [hm, hp]; decide
    have c2 : RouteHit "/health" req := by unfold RouteHit; rw [hm, hp]; decide
    rw [dispatch_route cfg now uptime duration req st hopt hrate]
    unfold routeResponse
    rw [if_neg c1, if_pos c2]
  · intro u₁ u₂ h0 h12
    exact ⟨u₁, u₂, rfl, rfl, h0, h12⟩

/-- Witness for C6: a concrete admitted health request returns 200 with the
health body. -/
theorem health_contract_witness :
    rateGet initState.rateHits reqHealth.ip < maxPerWindow ∧
    (dispatch cfg0 "t" 7 1 reqHealth initState).1 =
      some ⟨200, healthBody cfg0 "t" 7⟩ :=
  ⟨by decide,
   (health_contract cfg0 "t" 7 1 reqHealth initState rfl rfl (by decide)).1⟩

/-- Claim C7 (counterexample): an OPTIONS request whose method and path
match no defined route is terminated by `cors` with 204 and an empty body —
before the 404 catch-all — not with the claimed 404 payload. -/
theorem options_unrouted_gets_204 :
    ¬ MatchesRoute reqOpt ∧
    (dispatch cfg0 "t" 1 1 reqOpt initState).1.map Response.status =
      some 204 ∧
    ((some 204 : Option Nat) ≠ some 404) :=
  ⟨by decide, rfl, by decide⟩

/-- Claim C7 (amended): every non-OPTIONS request admitted by the limiter
whose method and path match no defined route — under Express's
case-insensitive, trailing-slash-tolerant matching, with HEAD served by GET
routes — gets HTTP 404 with error `"Not Found"`, a message containing the
literal requested path, and a timestamp. -/
theorem not_found_contract (cfg : Config) (now : String) (uptime duration : ℚ)
    (req : Request) (st : ServerState)
    (hopt : req.method ≠ "OPTIONS")
    (hroute : ¬ MatchesRoute req)
    (hrate : rateGet st.rateHits req.ip < maxPerWindow) :
    (dispatch cfg now uptime duration req st).1 =
      some ⟨404, notFoundBody req.originalUrl now⟩ ∧
    (notFoundBody req.originalUrl now).get "error" = some (.str "Not Found") ∧
    (notFoundBody req.originalUrl now).get "message" =
      some (.str ("Route " ++ req.originalUrl ++ " not found")) ∧
    (∃ pre suf : String,
      "Route " ++ req.originalUrl ++ " not found" = pre ++ req.originalUrl ++ suf) ∧
    (notFoundBody req.originalUrl now).get "timestamp" = some (.str now) := by
  refine ⟨?_, rfl, rfl, ⟨"Route ", " not found", rfl⟩, rfl⟩
  rw [dispatch_route cfg now uptime duration req st hopt hrate]
  unfold routeResponse
  rw [if_neg (fun h => hroute (Or.inl h)),
      if_neg (fun h => hroute (Or.inr (Or.inl h))),
      if_neg (fun h => hroute (Or.inr (Or.inr (Or.inl h)))),
      if_neg (fun h => hroute (Or.inr (Or.inr (Or.inr (Or.inl h))))),
      if_neg (fun h => hroute (Or.inr (Or.inr (Or.inr (Or.inr h)))))]

/-- Witness for the amended C7: `GET /nonexistent-path` returns the 404
payload. -/
theorem not_found_contract_witness :
    reqNF.method ≠ "OPTIONS" ∧
    ¬ MatchesRoute reqNF ∧
    rateGet initState.rateHits reqNF.ip < maxPerWindow ∧
    (dispatch cfg0 "t" 1 1 reqNF initState).1 =
      some ⟨404, notFoundBody "/nonexistent-path" "t"⟩ :=
  ⟨by decide, by decide, by decide,
   (not_found_contract cfg0 "t" 1 1 reqNF initState (by decide) (by decide)
      (by decide)).1⟩

/-- Model check: Express's default router is case-insensitive and
non-strict, and serves HEAD with the GET handler: `GET /HEALTH`,
`GET /health/` and `HEAD /health` are all routed to the health handler, not
to the 404 catch-all. -/
theorem routing_defaults_check :
    (dispatch cfg0 "t" 7 1 ⟨"GET", "/HEALTH", "203.0.113.9"⟩ initState).1 =
      some ⟨200, healthBody cfg0 "t" 7⟩ ∧
    (dispatch cfg0 "t" 7 1 ⟨"GET", "/health/", "203.0.113.9"⟩ initState).1 =
      some ⟨200, healthBody cfg0 "t" 7⟩ ∧
    (dispatch cfg0 "t" 7 1 ⟨"HEAD", "/health", "203.0.113.9"⟩ initState).1 =
      some ⟨200, healthBody cfg0 "t" 7⟩ :=
  ⟨rfl, rfl, rfl⟩

/-- Claim C9: `GET /api/v1/info` is deterministic — any two admitted calls,
whatever the configuration, clock readings or server state, produce the same
response (same status, byte-identical body) — and the `technologies` field
is a non-empty ordered sequence of strings. -/
theorem info_deterministic
    (cfg cfg' : Config) (now now' : String) (u u' d d' : ℚ)
    (req req' : Request) (st st' : ServerState)
    (hm : req.method = "GET") (hp : req.originalUrl = "/api/v1/info")
    (hm' : req'.method = "GET") (hp' : req'.originalUrl = "/api/v1/info")
    (hr : rateGet st.rateHits req.ip < maxPerWindow)
    (hr' : rateGet st'.rateHits req'.ip < maxPerWindow) :
    (dispatch cfg now u d req st).1 = (dispatch cfg' now' u' d' req' st').1 ∧
    (dispatch cfg now u d req st).1 = some ⟨200, infoBody⟩ ∧
    infoBody.get "technologies" = some (.arr (technologies.map .str)) ∧
    technologies ≠ [] := by
  have e1 : (dispatch cfg now u d req st).1 = some ⟨200, infoBody⟩ := by
    have hopt : req.method ≠ "OPTIONS" := by rw [hm]; decide
    have c1 : ¬ RouteHit "/" req := by unfold RouteHit; rw [hm, hp]; decide
    have c2 : ¬ RouteHit "/health" req := by unfold RouteHit; rw [hm, hp]; decide
    have c3 : ¬ RouteHit "/metrics" req := by unfold RouteHit; rw [hm, hp]; decide
    have c4 : ¬ RouteHit "/api/v1/status" req := by
      unfold RouteHit; rw [hm, hp]; decide
    have c5 : RouteHit "/api/v1/info" req := by
      unfold RouteHit; rw [hm, hp]; decide
    rw [dispatch_route cfg now u d req st hopt hr]
    unfold routeResponse
    rw [if_neg c1, if_neg c2, if_neg c3, if_neg c4, if_pos c5]
  have e2 : (dispatch cfg' now' u' d' req' st').1 = some ⟨200, infoBody⟩ := by
    have hopt : req'.method ≠ "OPTIONS" := by rw [hm']; decide
    have c1 : ¬ RouteHit "/" req' := by unfold RouteHit; rw [hm', hp']; decide
    have c2 : ¬ RouteHit "/health" req' := by unfold RouteHit; rw [hm', hp']; decide
    have c3 : ¬ RouteHit "/metrics" req' := by unfold RouteHit; rw [hm', hp']; decide
    have c4 : ¬ RouteHit "/api/v1/status" req' := by
      unfold RouteHit; rw [hm', hp']; decide
    have c5 : RouteHit "/api/v1/info" req' := by
      unfold RouteHit; rw [hm', hp']; decide
    rw [dispatch_route cfg' now' u' d' req' st' hopt hr']
    unfold routeResponse
    rw [if_neg c1, if_neg c2, if_neg c3, if_neg c4, if_pos c5]
  exact ⟨e1.trans e2.symm, e1, rfl, by decide⟩

/-- Witness for C9: two concrete admitted info calls with different
configurations, times and states give identical responses. -/
theorem info_deterministic_witness :
    rateGet initState.rateHits reqInfo.ip < maxPerWindow ∧
    rateGet altSt.rateHits reqInfo.ip < maxPerWindow ∧
    (dispatch cfg0 "t1" 1 2 reqInfo initState).1 =
      (dispatch ⟨some "production", some "2.0"⟩ "t2" 3 4 reqInfo altSt).1 :=
  ⟨by decide, by decide,
   (info_deterministic cfg0 ⟨some "production", some "2.0"⟩ "t1" "t2" 1 3 2 4
      reqInfo reqInfo initState altSt rfl rfl rfl rfl
      (by decide) (by decide)).1⟩

/-! ### Lifecycle lemmas and the shutdown claim -/

/-- Once the listener stops accepting, no later event turns it back on. -/
theorem lstep_accepting_false (l : Lifecycle.Life) (e : Lifecycle.Ev)
    (h : l.accepting = false) : (Lifecycle.lstep l e).accepting = false := by
  cases e <;> unfold Lifecycle.lstep <;> split_ifs <;> simp_all

/-- `accepting = false` is preserved by any event sequence. -/
theorem lrun_accepting_false (evs : List Lifecycle.Ev) (l : Lifecycle.Life)
    (h : l.accepting = false) : (Lifecycle.lrun l evs).accepting = false := by
  induction evs generalizing l with
  | nil => exact h
  | cons e es ih => exact ih _ (lstep_accepting_false l e h)

/-- A step preserves the exit invariant. -/
theorem LInv_step (l : Lifecycle.Life) (e : Lifecycle.Ev)
    (h : Lifecycle.LInv l) : Lifecycle.LInv (Lifecycle.lstep l e) := by
  cases e <;> unfold Lifecycle.lstep <;> split_ifs <;>
    first
      | exact h
      | (intro hx; exact ⟨rfl, rfl, rfl⟩)
      | (intro hx; simp_all [Lifecycle.LInv])

/-- An event sequence preserves the exit invariant. -/
theorem LInv_run (evs : List Lifecycle.Ev) (l : Lifecycle.Life)
    (h : Lifecycle.LInv l) : Lifecycle.LInv (Lifecycle.lrun l evs) := by
  induction evs generalizing l with
  | nil => exact h
  | cons e es ih => exact ih _ (LInv_step l e h)

/-- The initial state satisfies the exit invariant. -/
theorem LInv_init : Lifecycle.LInv Lifecycle.linit := by
  intro h
  exact absurd h (by decide)

/-- A signal turns accepting off (given the invariant). -/
theorem lstep_signal_not_accepting (l : Lifecycle.Life) (s : Lifecycle.Sig)
    (hInv : Lifecycle.LInv l) :
    (Lifecycle.lstep l (.signal s)).accepting = false := by
  simp only [Lifecycle.lstep]
  split_ifs with h1 h2
  · exact (hInv h1).2.2
  · rfl
  · rfl

/-- Event sequences compose. -/
theorem lrun_append (xs ys : List Lifecycle.Ev) (l : Lifecycle.Life) :
    Lifecycle.lrun l (xs ++ ys) = Lifecycle.lrun (Lifecycle.lrun l xs) ys := by
  induction xs generalizing l with
  | nil => rfl
  | cons x xs ih => exact ih _

/-- Claim C8: on receipt of either termination signal, the listener stops
accepting new connections and never accepts again; the process exits only
once every in-flight request has finished, and only with status code 0. -/
theorem graceful_shutdown (pre : List Lifecycle.Ev) (s : Lifecycle.Sig)
    (post : List Lifecycle.Ev) :
    (Lifecycle.lrun Lifecycle.linit (pre ++ .signal s :: post)).accepting = false ∧
    ((Lifecycle.lrun Lifecycle.linit (pre ++ .signal s :: post)).exited = none ∨
      ((Lifecycle.lrun Lifecycle.linit (pre ++ .signal s :: post)).exited = some 0 ∧
       (Lifecycle.lrun Lifecycle.linit (pre ++ .signal s :: post)).inflight = 0)) ∧
    (∀ l : Lifecycle.Life, l.accepting = false →
      Lifecycle.lstep l .accept = l) := by
  have hmid : Lifecycle.LInv (Lifecycle.lrun Lifecycle.linit pre) :=
    LInv_run pre Lifecycle.linit LInv_init
  have hrw : Lifecycle.lrun Lifecycle.linit (pre ++ .signal s :: post) =
      Lifecycle.lrun
        (Lifecycle.lstep (Lifecycle.lrun Lifecycle.linit pre) (.signal s))
        post := by
    rw [lrun_append]
    rfl
  refine ⟨?_, ?_, ?_⟩
  · rw [hrw]
    exact lrun_accepting_false post _
      (lstep_signal_not_accepting _ s hmid)
  · have hfin : Lifecycle.LInv
        (Lifecycle.lrun Lifecycle.linit (pre ++ .signal s :: post)) := by
      rw [hrw]
      exact LInv_run post _ (LInv_step _ _ hmid)
    rcases hx : (Lifecycle.lrun Lifecycle.linit
        (pre ++ .signal s :: post)).exited with _ | c
    · exact Or.inl rfl
    · have hI := hfin (by rw [hx]; rfl)
      exact Or.inr ⟨hx.symm.trans hI.1, hI.2.1⟩
  · intro l h
    unfold Lifecycle.lstep
    split_ifs <;> simp_all

/-- Witness for C8: one request is accepted, SIGTERM arrives mid-flight,
the request finishes, and only then does the process exit with code 0. -/
theorem graceful_shutdown_witness :
    (Lifecycle.lrun Lifecycle.linit
      ([.accept] ++ .signal .sigterm :: [.finish])).accepting = false ∧
    (Lifecycle.lrun Lifecycle.linit
      ([.accept] ++ .signal .sigterm :: [.finish])).exited = some 0 ∧
    (Lifecycle.lrun Lifecycle.linit
      ([.accept] ++ .signal .sigterm :: [.finish])).inflight = 0 :=
  ⟨(graceful_shutdown [.accept] .sigterm [.finish]).1, by decide, by decide⟩

end App
